import Mathlib

/-!
Verification development for the caelestia-fedora installer
(provisioning pipeline and conflict-aware package installation subsystem).

The Rust sources are shallowly embedded as pure Lean functions:

* An external host is a `World`: it supplies the content of the files the
  installer reads, an oracle `exec` giving the captured output of every
  external command the installer spawns, `which`-style lookups, and the
  answers of interactive prompts.  The environment is fixed for the
  duration of one modelled run (repeating a query returns the same answer).
* A step function of the source, `fn step(dry_run: bool) -> Result<()>`,
  becomes `step : Bool -> World -> List Effect × Except String Unit`:
  the list records the world-facing actions the step performed
  (process spawns, filesystem writes, removals, renames, symlinks) in
  order, and the `Except` is the step result (`Except.error` is the
  `anyhow` error carried by `bail!` / `?`).
* Calls to the logging and UI collaborators (`log::*`, `ui::info`,
  `ui::success`, progress reporting) are purely observational, declared
  external collaborators by the design (spec sections 1 and 6), and are
  not part of the effect vocabulary.  Diagnostic `ui::warning` and
  `ui::error` calls made on action paths are kept as `Effect.diag`
  entries because several properties refer to them.
* Process launch is assumed to succeed (the invoker contract), except for
  the `dmesg` read of `check_oom_event`, whose source explicitly guards
  launch failure with `if let Ok(..)`; it is therefore given an
  `Option ProcOutput`.
* `dirs::config_dir()`-style lookups are modelled by their source fallback
  literals (`~/.config`, `~/.local/share`, `~`), which serve as canonical
  path names; path values only matter as identifiers here.
-/

/-! ## String helpers mirroring the Rust `str` operations used -/

/-- `charsHasPre p s` is true when `p` is an initial segment of `s`
(character-list form of Rust `str::starts_with`). -/
def charsHasPre : List Char → List Char → Bool
  | [], _ => true
  | _ :: _, [] => false
  | p :: ps, c :: cs => p == c && charsHasPre ps cs

/-- `charsContain hay pat`: does `hay` have `pat` as a contiguous substring
(character-list form of Rust `str::contains`)? -/
def charsContain : List Char → List Char → Bool
  | hay, pat =>
    if charsHasPre pat hay then true
    else
      match hay with
      | [] => false
      | _ :: rest => charsContain rest pat

/-- Rust `str::contains` (substring containment). -/
def strContainsSub (s pat : String) : Bool :=
  charsContain s.data pat.data

/-- Rust `str::starts_with`. -/
def strStartsWith (s pat : String) : Bool :=
  charsHasPre pat.data s.data

/-- Rust `line.trim().is_empty()`: every character is whitespace. -/
def strIsBlank (s : String) : Bool :=
  s.data.all Char.isWhitespace

/-- Close off one accumulated (reversed) line, stripping one trailing
carriage return as Rust `str::lines` does. -/
def finishLine (rcur : List Char) : String :=
  match rcur with
  | '\r' :: rest => String.mk rest.reverse
  | _ => String.mk rcur.reverse

/-- Worker for `rustLines`: split at every newline; a terminal newline
produces no trailing empty line. -/
def charsLines : List Char → List Char → List String
  | [], rcur => if rcur.isEmpty then [] else [finishLine rcur]
  | '\n' :: cs, rcur => finishLine rcur :: charsLines cs []
  | c :: cs, rcur => charsLines cs (c :: rcur)

/-- Rust `str::lines`. -/
def rustLines (s : String) : List String :=
  charsLines s.data []

/-- Worker for `splitWs`: split on whitespace runs, no empty items. -/
def charsSplitWs : List Char → List Char → List String
  | [], rcur => if rcur.isEmpty then [] else [String.mk rcur.reverse]
  | c :: cs, rcur =>
    if c.isWhitespace then
      if rcur.isEmpty then charsSplitWs cs []
      else String.mk rcur.reverse :: charsSplitWs cs []
    else charsSplitWs cs (c :: rcur)

/-- Rust `str::split_whitespace`. -/
def splitWs (s : String) : List String :=
  charsSplitWs s.data []

/-- Digit-string accumulator for `parseUsize`. -/
def parseUsizeChars : List Char → Nat → Option Nat
  | [], acc => some acc
  | c :: cs, acc =>
    if c.isDigit then parseUsizeChars cs (acc * 10 + (c.toNat - 48))
    else none

/-- Rust `str::parse::<usize>()` restricted to plain digit strings (the
only shape fed to it here: the numeric field of `/proc/meminfo`). -/
def parseUsize (s : String) : Option Nat :=
  match s.data with
  | [] => none
  | cs => parseUsizeChars cs 0

/-- Last path component boundary: everything before the final slash
(Rust `Path::parent` for the absolute-style names used here). -/
def charsSplitOn (sep : Char) : List Char → List Char → List String
  | [], rcur => [String.mk rcur.reverse]
  | c :: cs, rcur =>
    if c == sep then String.mk rcur.reverse :: charsSplitOn sep cs []
    else charsSplitOn sep cs (c :: rcur)

/-- All components of `p` split at the slashes. -/
def pathParts (p : String) : List String :=
  charsSplitOn '/' p.data []

/-- Rust `Path::parent` rendered as a string (drop the last component). -/
def parentDir (p : String) : String :=
  String.intercalate "/" (pathParts p).dropLast

/-- Rust `Path::with_extension "bak"`: replace the extension of the last
component (or append `.bak` when it has none). -/
def withExtBak (p : String) : String :=
  match (pathParts p).getLast? with
  | none => p ++ ".bak"
  | some last =>
    let stem :=
      match (charsSplitOn '.' last.data []).dropLast with
      | [] => last
      | parts => String.intercalate "." parts
    String.intercalate "/" ((pathParts p).dropLast ++ [stem ++ ".bak"])

/-! ## Process, effect and world model -/

/-- Captured output of one external command (`std::process::Output`). -/
structure ProcOutput where
  success : Bool
  stdout : String
  stderr : String
deriving Repr, DecidableEq

/-- World-facing actions a step can perform, in order.  `spawn` records
the full argv (program first).  `diag` is a `ui::warning`/`ui::error`
diagnostic emitted on an action path. -/
inductive Effect where
  | spawn (argv : List String)
  | fsWrite (path : String)
  | fsRemove (path : String)
  | fsRename (src dst : String)
  | fsLink (src dst : String)
  | diag (msg : String)
deriving Repr, DecidableEq

/-- Is the effect a process spawn? -/
def Effect.isSpawn : Effect → Bool
  | .spawn _ => true
  | _ => false

/-- The argv lists of the spawned processes in a trace, in order. -/
def spawnArgvs (tr : List Effect) : List (List String) :=
  tr.filterMap fun e =>
    match e with
    | .spawn a => some a
    | _ => none

/-- Host environment as observed by one run: contents of the files read,
an oracle for external command output, `which` lookups, path metadata,
and prompt answers.  The environment is held fixed during the run. -/
structure World where
  osRelease : Option String
  memInfo : Option String
  dmesg : Option ProcOutput
  exec : List String → ProcOutput
  whichOk : String → Bool
  fileExists : String → Bool
  isSymlink : String → Bool
  isDir : String → Bool
  readFile : String → Option String
  confirmInstall : Bool
  confirmGreetd : Bool
  confirmReboot : Bool

/-- How a recorded effect changes the modelled host view.  Spawn results
are already supplied by `exec`; only the tracked filesystem facts move. -/
def applyEffect (w : World) (e : Effect) : World :=
  match e with
  | .fsWrite p => { w with fileExists := fun q => q == p || w.fileExists q }
  | .fsRemove p =>
    { w with fileExists := fun q => if q == p then false else w.fileExists q }
  | .fsRename p q =>
    { w with fileExists := fun r =>
        if r == p then false else if r == q then true else w.fileExists r }
  | .fsLink _ dst =>
    { w with
        fileExists := fun q => q == dst || w.fileExists q,
        isSymlink := fun q => q == dst || w.isSymlink q }
  | .spawn _ => w
  | .diag _ => w

/-- Fold a whole trace over the world. -/
def applyEffects (w : World) (tr : List Effect) : World :=
  tr.foldl applyEffect w

/-- Result type of every embedded step: effect trace plus step outcome. -/
abbrev StepResult := List Effect × Except String Unit

/-! ## system.rs -/

/-- Threshold decision of `get_ninja_jobs` once the `MemTotal` figure (in
kB) is known: `total_gb = total_kb / 1024 / 1024`; below 2 return 1,
below 4 return 2, otherwise fall through to 0 (all cores). -/
def jobsOfKb (total_kb : Nat) : Nat :=
  let total_gb := total_kb / 1024 / 1024
  if total_gb < 2 then 1
  else if total_gb < 4 then 2
  else 0

/-- The `MemTotal` extraction of `get_ninja_jobs`: first line starting
with `MemTotal:`, second whitespace-separated field, parsed as usize,
defaulting to 8000000 kB. -/
def memTotalKb (mem_info : String) : Nat :=
  ((((rustLines mem_info).find? fun line => strStartsWith line "MemTotal:").bind
      fun line => (splitWs line)[1]?).bind
      fun num => parseUsize num).getD 8000000

/-- `system::get_ninja_jobs`, as a function of the `/proc/meminfo`
content (`none` models an unreadable file: fall through to 0). -/
def get_ninja_jobs (memInfo : Option String) : Nat :=
  match memInfo with
  | some mem_info => jobsOfKb (memTotalKb mem_info)
  | none => 0

/-- `system::check_oom_event`, as a function of the `dmesg` invocation
result (`none` models a failed launch, swallowed by `if let Ok`).  It
only spawns `dmesg` and possibly emits a diagnostic; it has no failure
mode of its own. -/
def check_oom_event (dmesg : Option ProcOutput) : List Effect :=
  match dmesg with
  | some output =>
    let text := output.stdout
    Effect.spawn ["dmesg"] ::
      (if strContainsSub text "out of memory" || strContainsSub text "OOM-killer"
          || strContainsSub text "Killed process" then
        [Effect.diag "DETECTED: Build was likely killed by OOM (Out Of Memory) killer!"]
      else [])
  | none => []

/-! ## packages.rs: constants -/

/-- `packages::CRITICAL_QT_PACKAGES`. -/
def CRITICAL_QT_PACKAGES : List String :=
  ["qt6-qtbase-devel",
   "qt6-qtdeclarative-devel",
   "qt6-qtwayland-devel",
   "qt6-qtsvg-devel",
   "qt6-qtshadertools-devel",
   "qt6-qtbase-private-devel",
   "qt6-qtconnectivity-devel"]

/-- `packages::PACKAGES` (the declared package set, order preserved). -/
def PACKAGES : List String :=
  ["hyprland",
   "xdg-desktop-portal-hyprland",
   "xdg-desktop-portal-gtk",
   "hyprutils-devel",
   "hyprlang-devel",
   "foot",
   "fish",
   "greetd",
   "tuigreet",
   "qt6-qtbase-devel",
   "qt6-qtbase-private-devel",
   "qt6-qtdeclarative-devel",
   "qt6-qtdeclarative-static",
   "qt6-qtbase-static",
   "qt6-qtwayland-devel",
   "qt6-qtsvg-devel",
   "qt6-qtshadertools-devel",
   "qt6-qtconnectivity-devel",
   "spirv-tools",
   "cli11-devel",
   "jemalloc-devel",
   "wayland-devel",
   "wayland-protocols-devel",
   "libdrm-devel",
   "mesa-libgbm-devel",
   "pipewire-devel",
   "polkit-devel",
   "pam-devel",
   "pkgconf-pkg-config",
   "libqalculate-devel",
   "aubio-devel",
   "alsa-lib-devel",
   "fftw-devel",
   "pulseaudio-libs-devel",
   "autoconf-archive",
   "iniparser-devel",
   "libtool",
   "cmake",
   "ninja-build",
   "gcc-c++",
   "git",
   "curl",
   "tar",
   "unzip",
   "python3-devel",
   "python3-build",
   "python3-hatchling",
   "python3-pip",
   "libnotify",
   "fuzzel",
   "glib2-devel",
   "adw-gtk3-theme",
   "papirus-icon-theme",
   "google-noto-fonts-common",
   "google-noto-sans-fonts",
   "google-rubik-fonts",
   "fontawesome-fonts",
   "eza",
   "fastfetch",
   "btop",
   "wl-clipboard",
   "grim",
   "slurp",
   "swappy",
   "brightnessctl",
   "playerctl",
   "pamixer",
   "NetworkManager",
   "lxpolkit",
   "Thunar",
   "plasma-discover",
   "plasma-discover-flatpak",
   "zoxide",
   "fzf"]

/-! ## packages.rs: the skip-section scan of `install_all` -/

/-- One iteration of the `for line in &lines` loop of `install_all`
(state: the `in_skipping_section` flag and the `skipped_critical`
vector).  A line containing the header phrase sets the flag and is
otherwise skipped (`continue`); a blank line or an `Installing` /
`Upgrading` section start clears the flag before the line is scanned;
while the flag holds, every package of `pkgsToCheck` whose name the line
contains is appended. -/
def scanStep (pkgsToCheck : List String) (st : Bool × List String)
    (line : String) : Bool × List String :=
  if strContainsSub line "Skipping packages" then (true, st.2)
  else
    let inSec :=
      if st.1 && (strIsBlank line || strStartsWith line "Installing"
          || strStartsWith line "Upgrading") then false
      else st.1
    if inSec then
      (inSec, st.2 ++ pkgsToCheck.filter fun pkg => strContainsSub line pkg)
    else (inSec, st.2)

/-- The `skipped_critical` vector computed by `install_all` from the
first invocation's stdout.  The source checks only the first three
entries of `CRITICAL_QT_PACKAGES` (`iter().take(3)`). -/
def skippedCritical (stdout : String) : List String :=
  ((rustLines stdout).foldl (scanStep (CRITICAL_QT_PACKAGES.take 3))
    (false, [])).2

/-! ## packages.rs: install_all -/

/-- The argv of the first package-manager invocation of `install_all`. -/
def dnfInstallArgv : List String :=
  "sudo" :: "dnf" :: "install" :: "-y" :: "--allowerasing" :: PACKAGES

/-- The argv of the narrowed Qt retry invocation of `install_all`. -/
def dnfQtRetryArgv : List String :=
  "sudo" :: "dnf" :: "install" :: "-y" :: "--allowerasing" :: CRITICAL_QT_PACKAGES

/-- The `bail!` message of a failed Qt retry in `install_all`. -/
def failQtMsg : String :=
  "Failed to install critical Qt packages. You may need to manually resolve package conflicts.\nTry running: sudo dnf install --allowerasing qt6-qtbase-devel qt6-qtdeclarative-devel qt6-qtwayland-devel"

/-- `packages::install_all`.  Dry-run returns before any action.
Otherwise: one full `dnf install -y --allowerasing` invocation; if its
stdout carries a skip marker, scan for skipped critical Qt packages and,
when any were found, retry once with the whole `CRITICAL_QT_PACKAGES`
list; finally the original invocation's exit status decides success. -/
def install_all (dry_run : Bool) (w : World) : StepResult :=
  if dry_run then ([], Except.ok ())
  else
    let output := w.exec dnfInstallArgv
    let stdout := output.stdout
    let finalCheck : List Effect → StepResult := fun acc =>
      if output.success then (acc, Except.ok ())
      else (acc, Except.error "Failed to install packages")
    if strContainsSub stdout "Skipping packages with conflicts"
        || strContainsSub stdout "Skipping packages with broken dependencies" then
      let acc := [Effect.spawn dnfInstallArgv,
        Effect.diag "Some packages were skipped due to conflicts or broken dependencies"]
      let skipped_critical := skippedCritical stdout
      if skipped_critical.isEmpty then finalCheck acc
      else
        let acc := acc
          ++ [Effect.diag "Critical Qt development packages were skipped:"]
          ++ skipped_critical.map (fun pkg => Effect.diag ("  - " ++ pkg))
        let qt_output := w.exec dnfQtRetryArgv
        let acc := acc ++ [Effect.spawn dnfQtRetryArgv]
        if !qt_output.success || strContainsSub qt_output.stdout "Skipping packages" then
          (acc, Except.error failQtMsg)
        else finalCheck acc
    else finalCheck [Effect.spawn dnfInstallArgv]

/-! ## packages.rs: the remaining installer steps -/

/-- Sequence two step computations: on error the second never runs; on
success its effects are appended (the `?` operator of the source). -/
def andThenStep (a : StepResult) (b : List Effect → StepResult) : StepResult :=
  match a with
  | (tr, Except.error e) => (tr, Except.error e)
  | (tr, Except.ok ()) => b tr

/-- `packages::install_starship`: dry-run gate, `which` idempotency
check, then the curl-pipe-sh installer. -/
def install_starship (dry_run : Bool) (w : World) : StepResult :=
  if dry_run then ([], Except.ok ())
  else if w.whichOk "starship" then ([], Except.ok ())
  else
    let argv := ["sh", "-c", "curl -sS https://starship.rs/install.sh | sh -s -- -y"]
    let output := w.exec argv
    if output.success then ([Effect.spawn argv], Except.ok ())
    else ([Effect.spawn argv], Except.error "Failed to install Starship")

/-- `packages::install_rust`: dry-run gate, `which` idempotency check on
rustc and cargo, then the rustup installer. -/
def install_rust (dry_run : Bool) (w : World) : StepResult :=
  if dry_run then ([], Except.ok ())
  else if w.whichOk "rustc" && w.whichOk "cargo" then ([], Except.ok ())
  else
    let argv := ["sh", "-c",
      "curl --proto '=https' --tlsv1.2 -sSf https://sh.rustup.rs | sh -s -- -y"]
    let output := w.exec argv
    if output.success then ([Effect.spawn argv], Except.ok ())
    else ([Effect.spawn argv], Except.error "Failed to install Rust")

/-- The extra build tools `verify_qt_packages` checks besides the
critical Qt packages. -/
def build_tools : List String :=
  ["cmake", "ninja-build", "gcc-c++", "pkgconf", "fftw-devel",
   "iniparser-devel", "libqalculate-devel", "pipewire-devel", "aubio-devel"]

/-- The two Qt component config files `verify_qt_packages` requires. -/
def quickPrivatePath : String :=
  "/usr/lib64/cmake/Qt6QuickPrivate/Qt6QuickPrivateConfig.cmake"

/-- See `quickPrivatePath`. -/
def waylandPrivatePath : String :=
  "/usr/lib64/cmake/Qt6WaylandClientPrivate/Qt6WaylandClientPrivateConfig.cmake"

/-- The final component-file checks of `verify_qt_packages`. -/
def componentChecks (acc : List Effect) (w : World) : StepResult :=
  if !w.fileExists quickPrivatePath then
    (acc, Except.error ("Qt6QuickPrivate component not found at " ++ quickPrivatePath
      ++ ". Please ensure qt6-qtdeclarative-devel is properly installed."))
  else if !w.fileExists waylandPrivatePath then
    (acc, Except.error ("Qt6WaylandClientPrivate component not found at " ++ waylandPrivatePath
      ++ ". Please ensure qt6-qtwayland-devel is properly installed."))
  else (acc, Except.ok ())

/-- `packages::verify_qt_packages`: query `rpm -q` for every critical Qt
package and build tool, install the missing ones with conflict
resolution, re-query, and finally require the two Qt private component
files.  The environment answers repeated identical queries identically
(single-instant world). -/
def verify_qt_packages (w : World) : StepResult :=
  let allPkgs := CRITICAL_QT_PACKAGES ++ build_tools
  let rpmSpawns := allPkgs.map fun pkg => Effect.spawn ["rpm", "-q", pkg]
  let missing := allPkgs.filter fun pkg => !(w.exec ["rpm", "-q", pkg]).success
  if missing.isEmpty then componentChecks rpmSpawns w
  else
    let acc := rpmSpawns ++ [Effect.diag "Missing critical packages:"]
      ++ missing.map (fun pkg => Effect.diag ("  - " ++ pkg))
    let argv := "sudo" :: "dnf" :: "install" :: "-y" :: "--allowerasing" :: missing
    let output := w.exec argv
    let acc := acc ++ [Effect.spawn argv]
    if strContainsSub output.stdout "Skipping packages" then
      (acc ++ [Effect.diag "Some packages could not be installed due to unresolvable conflicts."],
        Except.error "Failed to install Qt packages due to repository conflicts")
    else if !output.success then
      (acc, Except.error "Failed to install missing packages")
    else
      let acc := acc ++ missing.map fun pkg => Effect.spawn ["rpm", "-q", pkg]
      let still_missing := missing.filter fun pkg => !(w.exec ["rpm", "-q", pkg]).success
      if !still_missing.isEmpty then
        (acc ++ [Effect.diag "The following packages are still missing after install attempt:"]
          ++ still_missing.map (fun pkg => Effect.diag ("  - " ++ pkg)),
          Except.error "Failed to install required packages. Check for repository conflicts.")
      else componentChecks acc w

/-- `packages::install_quickshell`: dry-run gate, `which` idempotency
check, Qt verification, clone, CMake configure, memory-adapted build
(with the post-failure OOM diagnosis), and install. -/
def install_quickshell (dry_run : Bool) (w : World) : StepResult :=
  if dry_run then ([], Except.ok ())
  else if w.whichOk "quickshell" then ([], Except.ok ())
  else
    andThenStep (verify_qt_packages w) fun vtr =>
    let acc := vtr ++
      (if w.fileExists "/tmp/quickshell" then [Effect.fsRemove "/tmp/quickshell"] else [])
    let cloneArgv := ["git", "clone", "--depth", "1",
      "https://git.outfoxxed.me/outfoxxed/quickshell.git", "/tmp/quickshell"]
    let output := w.exec cloneArgv
    let acc := acc ++ [Effect.spawn cloneArgv]
    if !output.success then (acc, Except.error "Failed to clone Quickshell")
    else
      let cfgArgv := ["cmake", "-B", "/tmp/quickshell/build", "-S", "/tmp/quickshell",
        "-G", "Ninja", "-DCMAKE_BUILD_TYPE=Release", "-DUSE_JEMALLOC=ON", "-DX11=OFF",
        "-DCRASH_REPORTER=OFF", "-DQt6_DIR=/usr/lib64/cmake/Qt6"]
      let output := w.exec cfgArgv
      let acc := acc ++ [Effect.spawn cfgArgv]
      if !output.success then
        (acc, Except.error "Failed to configure Quickshell. Check ~/.cache/caelestia-installer/install.log for details.")
      else
        let jobs := get_ninja_jobs w.memInfo
        let buildArgv := ["cmake", "--build", "/tmp/quickshell/build"]
          ++ (if jobs > 0 then ["-j", toString jobs] else [])
        let output := w.exec buildArgv
        let acc := acc ++ [Effect.spawn buildArgv]
        if !output.success then
          (acc ++ [Effect.diag "Build failed!"] ++ check_oom_event w.dmesg,
            Except.error "Failed to build Quickshell. Check ~/.cache/caelestia-installer/install.log for details.")
        else
          let insArgv := ["sudo", "cmake", "--install", "/tmp/quickshell/build"]
          let output := w.exec insArgv
          let acc := acc ++ [Effect.spawn insArgv]
          if !output.success then (acc, Except.error "Failed to install Quickshell")
          else (acc, Except.ok ())

/-- `packages::install_cava`: dry-run gate, pkg-config idempotency
check, clone, configure, memory-adapted build (OOM diagnosis on
failure), then the manual header/library/pkg-config install whose
individual command results the source ignores. -/
def install_cava (dry_run : Bool) (w : World) : StepResult :=
  if dry_run then ([], Except.ok ())
  else if w.fileExists "/usr/lib64/pkgconfig/cava.pc" then ([], Except.ok ())
  else
    let acc :=
      if w.fileExists "/tmp/cava-build" then [Effect.fsRemove "/tmp/cava-build"] else []
    let cloneArgv := ["git", "clone", "--depth", "1",
      "https://github.com/karlstav/cava", "/tmp/cava-build"]
    let output := w.exec cloneArgv
    let acc := acc ++ [Effect.spawn cloneArgv]
    if !output.success then (acc, Except.error "Failed to clone Cava")
    else
      let cfgArgv := ["cmake", "-B", "/tmp/cava-build/build", "-S", "/tmp/cava-build",
        "-G", "Ninja", "-DCMAKE_BUILD_TYPE=Release", "-DCMAKE_POSITION_INDEPENDENT_CODE=ON"]
      let output := w.exec cfgArgv
      let acc := acc ++ [Effect.spawn cfgArgv]
      if !output.success then (acc, Except.error "Failed to configure Cava")
      else
        let jobs := get_ninja_jobs w.memInfo
        let buildArgv := ["cmake", "--build", "/tmp/cava-build/build"]
          ++ (if jobs > 0 then ["-j", toString jobs] else [])
        let output := w.exec buildArgv
        let acc := acc ++ [Effect.spawn buildArgv]
        if !output.success then
          (acc ++ check_oom_event w.dmesg, Except.error "Failed to build Cava")
        else
          let acc := acc
            ++ [Effect.spawn ["sudo", "cp", "/tmp/cava-build/cavacore.h", "/usr/include/"],
                Effect.spawn ["sudo", "mkdir", "-p", "/usr/include/cava"],
                Effect.spawn ["sudo", "ln", "-sf", "/usr/include/cavacore.h",
                  "/usr/include/cava/cavacore.h"],
                Effect.spawn ["sudo", "cp", "/tmp/cava-build/build/libcavacore.a", "/usr/lib64/"],
                Effect.fsWrite "/tmp/cava-build/cava.pc",
                Effect.spawn ["sudo", "cp", "/tmp/cava-build/cava.pc", "/usr/lib64/pkgconfig/"]]
          (acc, Except.ok ())

/-- The user font directory (home fallback plus `.local/share/fonts`). -/
def fontDir : String := "~/.local/share/fonts"

/-- `packages::install_fonts`: dry-run gate, then three idempotent
download-and-extract blocks whose failures only warn, and a font cache
refresh. -/
def install_fonts (dry_run : Bool) (w : World) : StepResult :=
  if dry_run then ([], Except.ok ())
  else
    let acc := [Effect.fsWrite fontDir]
    let matTarget := fontDir ++ "/MaterialSymbolsRounded.ttf"
    let acc := acc ++
      (if !w.fileExists matTarget then
        let argv := ["curl", "-L", "-o", matTarget,
          "https://github.com/google/material-design-icons/raw/master/variablefont/MaterialSymbolsRounded%5BFILL,GRAD,opsz,wght%5D.ttf"]
        Effect.spawn argv ::
          (if !(w.exec argv).success then
            [Effect.diag "Failed to download Material Symbols Rounded"] else [])
      else [])
    let casTarget := fontDir ++ "/CaskaydiaCoveNerdFont-Regular.ttf"
    let acc := acc ++
      (if !w.fileExists casTarget then
        let argv := ["curl", "-L", "-o", "/tmp/CaskaydiaCove.zip",
          "https://github.com/ryanoasis/nerd-fonts/releases/download/v3.3.0/CascadiaCode.zip"]
        Effect.spawn argv ::
          (if (w.exec argv).success then
            let uzArgv := ["unzip", "-o", "/tmp/CaskaydiaCove.zip", "-d", fontDir,
              "CaskaydiaCoveNerdFont*.ttf"]
            Effect.spawn uzArgv ::
              (if !(w.exec uzArgv).success then
                [Effect.diag "Failed to extract Caskaydia Cove"] else [])
              ++ [Effect.fsRemove "/tmp/CaskaydiaCove.zip"]
          else [Effect.diag "Failed to download Caskaydia Cove"])
      else [])
    let jbTarget := fontDir ++ "/JetBrainsMonoNerdFont-Regular.ttf"
    let acc := acc ++
      (if !w.fileExists jbTarget then
        let argv := ["curl", "-L", "-o", "/tmp/JetBrainsMono.zip",
          "https://github.com/ryanoasis/nerd-fonts/releases/download/v3.3.0/JetBrainsMono.zip"]
        Effect.spawn argv ::
          (if (w.exec argv).success then
            let uzArgv := ["unzip", "-o", "/tmp/JetBrainsMono.zip", "-d", fontDir,
              "JetBrainsMonoNerdFont*.ttf"]
            Effect.spawn uzArgv ::
              (if !(w.exec uzArgv).success then
                [Effect.diag "Failed to extract JetBrains Mono"] else [])
              ++ [Effect.fsRemove "/tmp/JetBrainsMono.zip"]
          else [Effect.diag "Failed to download JetBrains Mono"])
      else [])
    (acc ++ [Effect.spawn ["fc-cache", "-fv"]], Except.ok ())

/-- `packages::install_hyprland_qt_support`: dry-run gate, library-file
idempotency check, clone (result unchecked), configure, memory-adapted
build with OOM diagnosis, install (result unchecked). -/
def install_hyprland_qt_support (dry_run : Bool) (w : World) : StepResult :=
  if dry_run then ([], Except.ok ())
  else if w.fileExists "/usr/lib64/libhyprland-qt-support.so" then ([], Except.ok ())
  else
    let acc :=
      if w.fileExists "/tmp/hyprland-qt-support" then
        [Effect.fsRemove "/tmp/hyprland-qt-support"] else []
    let acc := acc ++ [Effect.spawn ["git", "clone",
      "https://github.com/hyprwm/hyprland-qt-support", "/tmp/hyprland-qt-support"]]
    let cfgArgv := ["cmake", "-B", "/tmp/hyprland-qt-support/build",
      "-S", "/tmp/hyprland-qt-support", "-G", "Ninja", "-DCMAKE_BUILD_TYPE=Release",
      "-DCMAKE_INSTALL_PREFIX=/usr", "-DCMAKE_INSTALL_LIBDIR=lib64"]
    let output := w.exec cfgArgv
    let acc := acc ++ [Effect.spawn cfgArgv]
    if !output.success then (acc, Except.error "Failed to configure hyprland-qt-support")
    else
      let jobs := get_ninja_jobs w.memInfo
      let buildArgv := ["cmake", "--build", "/tmp/hyprland-qt-support/build"]
        ++ (if jobs > 0 then ["-j", toString jobs] else [])
      let output := w.exec buildArgv
      let acc := acc ++ [Effect.spawn buildArgv]
      if !output.success then
        (acc ++ check_oom_event w.dmesg,
          Except.error "Failed to build hyprland-qt-support")
      else
        (acc ++ [Effect.spawn ["sudo", "cmake", "--install", "/tmp/hyprland-qt-support/build"]],
          Except.ok ())

/-- `packages::install_hyprland_qtutils`: dry-run gate, `which`
idempotency check, Qt verification, clone (unchecked), configure,
memory-adapted build with OOM diagnosis, install (unchecked). -/
def install_hyprland_qtutils (dry_run : Bool) (w : World) : StepResult :=
  if dry_run then ([], Except.ok ())
  else if w.whichOk "hyprland-dialog" then ([], Except.ok ())
  else
    andThenStep (verify_qt_packages w) fun vtr =>
    let acc := vtr ++
      (if w.fileExists "/tmp/hyprland-qtutils" then
        [Effect.fsRemove "/tmp/hyprland-qtutils"] else [])
    let acc := acc ++ [Effect.spawn ["git", "clone",
      "https://github.com/hyprwm/hyprland-qtutils", "/tmp/hyprland-qtutils"]]
    let cfgArgv := ["cmake", "-B", "/tmp/hyprland-qtutils/build",
      "-S", "/tmp/hyprland-qtutils", "-G", "Ninja", "-DCMAKE_BUILD_TYPE=Release",
      "-DCMAKE_INSTALL_PREFIX=/usr", "-DQt6_DIR=/usr/lib64/cmake/Qt6"]
    let output := w.exec cfgArgv
    let acc := acc ++ [Effect.spawn cfgArgv]
    if !output.success then (acc, Except.error "Failed to configure hyprland-qtutils")
    else
      let jobs := get_ninja_jobs w.memInfo
      let buildArgv := ["cmake", "--build", "/tmp/hyprland-qtutils/build"]
        ++ (if jobs > 0 then ["-j", toString jobs] else [])
      let output := w.exec buildArgv
      let acc := acc ++ [Effect.spawn buildArgv]
      if !output.success then
        (acc ++ check_oom_event w.dmesg,
          Except.error "Failed to build hyprland-qtutils")
      else
        (acc ++ [Effect.spawn ["sudo", "cmake", "--install", "/tmp/hyprland-qtutils/build"]],
          Except.ok ())

/-! ## checks.rs -/

/-- `checks::check_fedora`: always runs (no dry-run gate); reads
`/etc/os-release` (missing file reads as the empty string,
`unwrap_or_default`) and fails unless a Fedora ID marker is present. -/
def check_fedora (w : World) : StepResult :=
  let os_release := w.osRelease.getD ""
  if !strContainsSub os_release "ID=fedora"
      && !strContainsSub os_release "ID=\"fedora\"" then
    ([], Except.error "This installer only supports Fedora. Detected OS does not appear to be Fedora.")
  else ([], Except.ok ())

/-- `checks::check_network`: skipped in dry-run; otherwise one ping whose
failure (or launch failure) is fatal. -/
def check_network (dry_run : Bool) (w : World) : StepResult :=
  if dry_run then ([], Except.ok ())
  else
    let argv := ["ping", "-c", "1", "-W", "5", "fedoraproject.org"]
    let output := w.exec argv
    if output.success then ([Effect.spawn argv], Except.ok ())
    else ([Effect.spawn argv],
      Except.error "No network connectivity. Please check your internet connection.")

/-- `checks::check_sudo`: skipped in dry-run; otherwise `sudo -v`. -/
def check_sudo (dry_run : Bool) (w : World) : StepResult :=
  if dry_run then ([], Except.ok ())
  else
    let argv := ["sudo", "-v"]
    let output := w.exec argv
    if output.success then ([Effect.spawn argv], Except.ok ())
    else ([Effect.spawn argv],
      Except.error "Could not get sudo access. Please run as a user with sudo privileges.")

/-- `checks::run_all`: Fedora check first (unconditionally), then the
dry-run-gated network and sudo checks. -/
def checks_run_all (dry_run : Bool) (w : World) : StepResult :=
  andThenStep (check_fedora w) fun tr1 =>
  andThenStep (let r := check_network dry_run w; (tr1 ++ r.1, r.2)) fun tr2 =>
  let r := check_sudo dry_run w
  (tr2 ++ r.1, r.2)

/-! ## repos.rs -/

/-- `repos::add_copr` for one repository name. -/
def add_copr (repo : String) (dry_run : Bool) (w : World) : StepResult :=
  if dry_run then ([], Except.ok ())
  else
    let argv := ["sudo", "dnf", "copr", "enable", "-y", repo]
    let output := w.exec argv
    if output.success then ([Effect.spawn argv], Except.ok ())
    else ([Effect.spawn argv], Except.error ("Failed to enable COPR repo: " ++ repo))

/-- `repos::COPR_REPOS`. -/
def COPR_REPOS : List String := ["solopasha/hyprland"]

/-- `repos::add_all`: enable each COPR repository in order, aborting on
the first failure. -/
def add_all (dry_run : Bool) (w : World) : StepResult :=
  COPR_REPOS.foldl
    (fun acc repo => andThenStep acc fun tr =>
      let r := add_copr repo dry_run w
      (tr ++ r.1, r.2))
    ([], Except.ok ())

/-! ## dotfiles.rs -/

/-- `dotfiles::DOTFILES_REPO`. -/
def DOTFILES_REPO : String := "https://github.com/caelestia-dots/caelestia.git"

/-- `dotfiles::SHELL_REPO`. -/
def SHELL_REPO : String := "https://github.com/caelestia-dots/shell.git"

/-- The dotfiles clone destination (`~/.local/share/caelestia`). -/
def dotfilesDir : String := "~/.local/share/caelestia"

/-- The shell clone destination (`~/.config/quickshell/caelestia`). -/
def shellDir : String := "~/.config/quickshell/caelestia"

/-- `dotfiles::clone_repo`: dry-run gate; when the destination already
exists, refresh with `git pull` whose failure only warns and the step
still succeeds; otherwise create the parent and clone, failure fatal. -/
def clone_repo (url : String) (dest : String) (dry_run : Bool) (w : World) : StepResult :=
  if dry_run then ([], Except.ok ())
  else if w.fileExists dest then
    let argv := ["git", "-C", dest, "pull"]
    let output := w.exec argv
    (Effect.spawn argv ::
      (if !output.success then [Effect.diag "Pull failed, continuing anyway"] else []),
      Except.ok ())
  else
    let acc := [Effect.fsWrite (parentDir dest)]
    let argv := ["git", "clone", url, dest]
    let output := w.exec argv
    let acc := acc ++ [Effect.spawn argv]
    if output.success then (acc, Except.ok ())
    else (acc, Except.error ("Failed to clone repository: " ++ url))

/-- `dotfiles::patch_gestures`: a kept-for-compatibility no-op in both
modes (upstream already uses the new gesture syntax). -/
def patch_gestures (dry_run : Bool) : StepResult :=
  if dry_run then ([], Except.ok ())
  else ([], Except.ok ())

/-- `dotfiles::clone_repos`: clone the dotfiles and shell repositories,
then run the gesture patch no-op. -/
def clone_repos (dry_run : Bool) (w : World) : StepResult :=
  andThenStep (clone_repo DOTFILES_REPO dotfilesDir dry_run w) fun tr1 =>
  andThenStep (let r := clone_repo SHELL_REPO shellDir dry_run w; (tr1 ++ r.1, r.2)) fun tr2 =>
  let r := patch_gestures dry_run
  (tr2 ++ r.1, r.2)

/-- `dotfiles::create_symlink`: dry-run gate; back up a real directory
(`with_extension "bak"`), remove any other existing entry, ensure the
parent, link when the source exists and otherwise warn. -/
def create_symlink (source destination : String) (dry_run : Bool) (w : World) : StepResult :=
  if dry_run then ([], Except.ok ())
  else
    let acc :=
      if w.fileExists destination || w.isSymlink destination then
        if w.isDir destination && !w.isSymlink destination then
          [Effect.fsRename destination (withExtBak destination)]
        else [Effect.fsRemove destination]
      else []
    let acc := acc ++ [Effect.fsWrite (parentDir destination)]
    if w.fileExists source then
      (acc ++ [Effect.fsLink source destination], Except.ok ())
    else
      (acc ++ [Effect.diag ("Source " ++ source ++ " does not exist, skipping")],
        Except.ok ())

/-- The config-name pairs `symlink_configs` links. -/
def symlinkPairs : List (String × String) :=
  [("hypr", "hypr"), ("foot", "foot"), ("fish", "fish"),
   ("fastfetch", "fastfetch"), ("btop", "btop"), ("uwsm", "uwsm")]

/-- `dotfiles::symlink_configs`: link each config directory and the
starship config from the dotfiles checkout into `~/.config`. -/
def symlink_configs (dry_run : Bool) (w : World) : StepResult :=
  andThenStep
    (symlinkPairs.foldl
      (fun acc pair => andThenStep acc fun tr =>
        let r := create_symlink (dotfilesDir ++ "/" ++ pair.1)
          ("~/.config/" ++ pair.2) dry_run w
        (tr ++ r.1, r.2))
      ([], Except.ok ()))
    fun tr =>
      let r := create_symlink (dotfilesDir ++ "/starship.toml")
        "~/.config/starship.toml" dry_run w
      (tr ++ r.1, r.2)

/-- `dotfiles::build_shell`: dry-run gate; require the shell checkout,
clean and recreate the build directory, configure, memory-adapted build
with OOM diagnosis, and a sudo install whose failure only warns. -/
def build_shell (dry_run : Bool) (w : World) : StepResult :=
  if dry_run then ([], Except.ok ())
  else if !w.fileExists shellDir then
    ([], Except.error ("Shell directory does not exist: " ++ shellDir))
  else
    let buildDir := shellDir ++ "/build"
    let acc := (if w.fileExists buildDir then [Effect.fsRemove buildDir] else [])
      ++ [Effect.fsWrite buildDir]
    let cfgArgv := ["cmake", "-B", buildDir, "-S", shellDir, "-G", "Ninja",
      "-DCMAKE_BUILD_TYPE=Release", "-DCMAKE_INSTALL_PREFIX=/usr",
      "-DINSTALL_QMLDIR=/usr/lib64/qt6/qml", "-DINSTALL_LIBDIR=/usr/lib64/caelestia"]
    let output := w.exec cfgArgv
    let acc := acc ++ [Effect.spawn cfgArgv]
    if !output.success then
      (acc ++ [Effect.diag "CMake configure failed:"],
        Except.error "CMake configure failed. Check ~/.cache/caelestia-installer/install.log for details.")
    else
      let jobs := get_ninja_jobs w.memInfo
      let buildArgv := ["cmake", "--build", buildDir]
        ++ (if jobs > 0 then ["-j", toString jobs] else [])
      let output := w.exec buildArgv
      let acc := acc ++ [Effect.spawn buildArgv]
      if !output.success then
        (acc ++ [Effect.diag "Shell build failed:"] ++ check_oom_event w.dmesg,
          Except.error "Shell build failed. Check ~/.cache/caelestia-installer/install.log for details.")
      else
        let insArgv := ["sudo", "cmake", "--install", buildDir]
        let output := w.exec insArgv
        let acc := acc ++ [Effect.spawn insArgv]
        if output.success then
          let acc := acc ++
            (if w.fileExists "/usr/lib64/qt6/qml/Caelestia" then
              [Effect.spawn ["ls", "-R", "/usr/lib64/qt6/qml/Caelestia"]]
            else if w.fileExists "/usr/lib/qt6/qml/Caelestia" then
              [Effect.spawn ["ls", "-R", "/usr/lib/qt6/qml/Caelestia"]]
            else [])
          (acc, Except.ok ())
        else (acc ++ [Effect.diag "Shell installation failed"], Except.ok ())

/-! ## cli.rs -/

/-- `cli::install_fish_completions`: copy the completions file when the
checkout provides one; failure only warns. -/
def install_fish_completions (cli_dir : String) (w : World) : StepResult :=
  if w.fileExists (cli_dir ++ "/completions/caelestia.fish") then
    let argv := ["sudo", "cp", cli_dir ++ "/completions/caelestia.fish",
      "/usr/share/fish/vendor_completions.d/caelestia.fish"]
    let output := w.exec argv
    (Effect.spawn argv ::
      (if !output.success then [Effect.diag "Could not install fish completions"] else []),
      Except.ok ())
  else ([], Except.ok ())

/-- `cli::install_cli`: dry-run gate, `which` idempotency check, clone,
pip install of hatch-vcs (failure warns) and of the checkout (failure
fatal), wrapper script via `sudo tee` and `chmod` (results ignored),
then fish completions. -/
def install_cli (dry_run : Bool) (w : World) : StepResult :=
  if dry_run then ([], Except.ok ())
  else if w.whichOk "caelestia" then ([], Except.ok ())
  else
    let acc :=
      if w.fileExists "/tmp/caelestia-cli" then [Effect.fsRemove "/tmp/caelestia-cli"] else []
    let cloneArgv := ["git", "clone", "https://github.com/caelestia-dots/cli.git",
      "/tmp/caelestia-cli"]
    let output := w.exec cloneArgv
    let acc := acc ++ [Effect.spawn cloneArgv]
    if !output.success then (acc, Except.error "Failed to clone caelestia-cli")
    else
      let hvArgv := ["pip3", "install", "--break-system-packages", "hatch-vcs"]
      let hvOut := w.exec hvArgv
      let acc := acc ++ [Effect.spawn hvArgv]
        ++ (if !hvOut.success then
          [Effect.diag "Could not install hatch-vcs, continuing anyway"] else [])
      let pipArgv := ["pip3", "install", "--break-system-packages", "/tmp/caelestia-cli"]
      let pipOut := w.exec pipArgv
      let acc := acc ++ [Effect.spawn pipArgv]
      if !pipOut.success then (acc, Except.error "Failed to install caelestia-cli")
      else
        let acc := acc
          ++ [Effect.spawn ["sudo", "tee", "/usr/local/bin/caelestia"],
              Effect.spawn ["sudo", "chmod", "+x", "/usr/local/bin/caelestia"]]
        let r := install_fish_completions "/tmp/caelestia-cli" w
        (acc ++ r.1, r.2)

/-- `cli::init_scheme`: dry-run gate; copy the default colour scheme when
present (warn otherwise), ensure the caelestia config directory and its
seed files, and rewrite the starship config symbols when it exists. -/
def init_scheme (dry_run : Bool) (w : World) : StepResult :=
  if dry_run then ([], Except.ok ())
  else
    let acc :=
      if w.fileExists "~/.config/hypr/scheme/default.conf" then
        [Effect.fsWrite "~/.config/hypr/scheme/current.conf"]
      else [Effect.diag "Default scheme file not found, skipping"]
    let acc := acc ++ [Effect.fsWrite "~/.config/caelestia"]
    let acc := acc ++
      (if !w.fileExists "~/.config/caelestia/hypr-vars.conf" then
        [Effect.fsWrite "~/.config/caelestia/hypr-vars.conf"] else [])
    let acc := acc ++
      (if !w.fileExists "~/.config/caelestia/hypr-user.conf" then
        [Effect.fsWrite "~/.config/caelestia/hypr-user.conf"] else [])
    let acc := acc ++
      (if w.fileExists "~/.local/share/caelestia/starship.toml" then
        [Effect.fsWrite "~/.local/share/caelestia/starship.toml"] else [])
    (acc, Except.ok ())

/-! ## shell.rs -/

/-- `shell::set_default_shell` (the body of `shell::setup_all`): dry-run
gate, then `chsh` whose failure of any kind only warns. -/
def shell_setup_all (dry_run : Bool) (w : World) : StepResult :=
  if dry_run then ([], Except.ok ())
  else
    let argv := ["chsh", "-s", "/usr/bin/fish"]
    let output := w.exec argv
    (Effect.spawn argv ::
      (if !output.success then
        [Effect.diag "Could not set default shell (may need to run manually: chsh -s /usr/bin/fish)"]
      else []),
      Except.ok ())

/-! ## keybinds.rs -/

/-- `keybinds::add_source_line`: append the keybinds source line to
`hyprland.conf` when the file exists and lacks it. -/
def add_source_line (w : World) : StepResult :=
  if !w.fileExists "~/.config/hypr/hyprland.conf" then ([], Except.ok ())
  else
    let content := (w.readFile "~/.config/hypr/hyprland.conf").getD ""
    if strContainsSub content "source = ~/.config/hypr/keybinds.conf" then
      ([], Except.ok ())
    else ([Effect.fsWrite "~/.config/hypr/hyprland.conf"], Except.ok ())

/-- `keybinds::setup_keybinds`: dry-run gate; ensure the hypr config
directory, do not overwrite an existing keybinds file, otherwise write
it and hook it into `hyprland.conf`. -/
def setup_keybinds (dry_run : Bool) (w : World) : StepResult :=
  if dry_run then ([], Except.ok ())
  else
    let acc := [Effect.fsWrite "~/.config/hypr"]
    if w.fileExists "~/.config/hypr/keybinds.conf" then
      (acc ++ [Effect.diag "keybinds.conf already exists, skipping"], Except.ok ())
    else
      let acc := acc ++ [Effect.fsWrite "~/.config/hypr/keybinds.conf"]
      let r := add_source_line w
      (acc ++ r.1, r.2)

/-! ## greetd.rs -/

/-- `greetd::create_greeter_user`: dry-run gate; `id greeter` check,
then `useradd` whose failure only warns. -/
def create_greeter_user (dry_run : Bool) (w : World) : StepResult :=
  if dry_run then ([], Except.ok ())
  else
    let checkOut := w.exec ["id", "greeter"]
    let acc := [Effect.spawn ["id", "greeter"]]
    if checkOut.success then (acc, Except.ok ())
    else
      let argv := ["sudo", "useradd", "-r", "-s", "/usr/sbin/nologin", "greeter"]
      let output := w.exec argv
      (acc ++ [Effect.spawn argv]
        ++ (if !output.success then
          [Effect.diag "Could not create greeter user (may already exist)"] else []),
        Except.ok ())

/-- `greetd::create_cache_dir`: dry-run gate; three privileged commands
whose results are ignored. -/
def create_cache_dir (dry_run : Bool) : StepResult :=
  if dry_run then ([], Except.ok ())
  else
    ([Effect.spawn ["sudo", "mkdir", "-p", "/var/cache/tuigreet"],
      Effect.spawn ["sudo", "chown", "greeter:greeter", "/var/cache/tuigreet"],
      Effect.spawn ["sudo", "chmod", "0755", "/var/cache/tuigreet"]],
      Except.ok ())

/-- `greetd::write_config`: dry-run gate; ensure `/etc/greetd`, then pipe
the config through `sudo tee`; a failed write is fatal. -/
def write_config (dry_run : Bool) (w : World) : StepResult :=
  if dry_run then ([], Except.ok ())
  else
    let acc := [Effect.spawn ["sudo", "mkdir", "-p", "/etc/greetd"]]
    let teeArgv := ["sudo", "tee", "/etc/greetd/config.toml"]
    let output := w.exec teeArgv
    let acc := acc ++ [Effect.spawn teeArgv]
    if output.success then (acc, Except.ok ())
    else (acc, Except.error "Failed to write greetd configuration")

/-- `greetd::run_systemctl`: one systemctl command whose failure only
warns. -/
def run_systemctl (action service : String) (w : World) : StepResult :=
  let argv := ["sudo", "systemctl", action, service]
  let output := w.exec argv
  (Effect.spawn argv ::
    (if !output.success then
      [Effect.diag ("systemctl " ++ action ++ " " ++ service ++ " may have failed")]
    else []),
    Except.ok ())

/-- `greetd::configure_services`: dry-run gate; disable getty, enable
greetd, set the graphical target (that last failure only warns). -/
def configure_services (dry_run : Bool) (w : World) : StepResult :=
  if dry_run then ([], Except.ok ())
  else
    andThenStep (run_systemctl "disable" "getty@tty1" w) fun tr1 =>
    andThenStep (let r := run_systemctl "enable" "greetd" w; (tr1 ++ r.1, r.2)) fun tr2 =>
    let argv := ["sudo", "systemctl", "set-default", "graphical.target"]
    let output := w.exec argv
    (tr2 ++ [Effect.spawn argv]
      ++ (if !output.success then
        [Effect.diag "Could not set default target (may need to run manually)"] else []),
      Except.ok ())

/-- `greetd::setup_all`: the four greetd sub-steps in order. -/
def greetd_setup_all (dry_run : Bool) (w : World) : StepResult :=
  andThenStep (create_greeter_user dry_run w) fun tr1 =>
  andThenStep (let r := create_cache_dir dry_run; (tr1 ++ r.1, r.2)) fun tr2 =>
  andThenStep (let r := write_config dry_run w; (tr2 ++ r.1, r.2)) fun tr3 =>
  let r := configure_services dry_run w
  (tr3 ++ r.1, r.2)

/-! ## main.rs: the pipeline executor -/

/-- The ordered step list of `run` (main.rs).  Each entry is one
`step(..)?` call site; the final greetd step is guarded by
`noconfirm || prompt` as in the source. -/
def pipelineSteps (dry_run noconfirm : Bool) : List (World → StepResult) :=
  [fun w => checks_run_all dry_run w,
   fun w => add_all dry_run w,
   fun w => install_all dry_run w,
   fun w => install_starship dry_run w,
   fun w => install_rust dry_run w,
   fun w => install_hyprland_qt_support dry_run w,
   fun w => install_hyprland_qtutils dry_run w,
   fun w => install_quickshell dry_run w,
   fun w => install_cava dry_run w,
   fun w => install_fonts dry_run w,
   fun w => clone_repos dry_run w,
   fun w => install_cli dry_run w,
   fun w => symlink_configs dry_run w,
   fun w => init_scheme dry_run w,
   fun w => build_shell dry_run w,
   fun w => shell_setup_all dry_run w,
   fun w => setup_keybinds dry_run w,
   fun w => if noconfirm || w.confirmGreetd then greetd_setup_all dry_run w
     else ([], Except.ok ())]

/-- Sequential executor over a step list: run steps in order, stopping at
the first Fatal (`?` chaining in `run`).  Returns how many steps were
executed, the concatenated trace, and the final result. -/
def execSteps (steps : List (World → StepResult)) (w : World) :
    Nat × List Effect × Except String Unit :=
  match steps with
  | [] => (0, [], Except.ok ())
  | s :: rest =>
    match s w with
    | (tr, Except.error e) => (1, tr, Except.error e)
    | (tr, Except.ok ()) =>
      let r := execSteps rest w
      (r.1 + 1, tr ++ r.2.1, r.2.2)

/-- `main::run`: the confirmation gate, the pipeline, and the optional
reboot prompt at the end. -/
def run (dry_run noconfirm : Bool) (w : World) : StepResult :=
  if !noconfirm && !dry_run && !w.confirmInstall then ([], Except.ok ())
  else
    let r := execSteps (pipelineSteps dry_run noconfirm) w
    match r.2.2 with
    | Except.error e => (r.2.1, Except.error e)
    | Except.ok () =>
      if !dry_run && !noconfirm && w.confirmReboot then
        (r.2.1 ++ [Effect.spawn ["sudo", "reboot"]], Except.ok ())
      else (r.2.1, Except.ok ())

/-- Exit status of `main` for a given run result: 1 via
`std::process::exit(1)` on an error, 0 otherwise. -/
def exitOf (r : Except String Unit) : Nat :=
  match r with
  | Except.ok _ => 0
  | Except.error _ => 1

/-- Exit status mapping of `main` over a whole run. -/
def mainExitCode (dry_run noconfirm : Bool) (w : World) : Nat :=
  exitOf (run dry_run noconfirm w).2

/-! ## Concrete worlds used by the theorems below -/

/-- A successful empty command output. -/
def okOut : ProcOutput := { success := true, stdout := "", stderr := "" }

/-- A failed empty command output. -/
def failOut : ProcOutput := { success := false, stdout := "", stderr := "" }

/-- A benign Fedora host: every command succeeds with empty output,
nothing is installed yet, every prompt is answered yes (except the
final reboot). -/
def w0 : World :=
  { osRelease := some "ID=fedora"
    memInfo := none
    dmesg := none
    exec := fun _ => okOut
    whichOk := fun _ => false
    fileExists := fun _ => false
    isSymlink := fun _ => false
    isDir := fun _ => false
    readFile := fun _ => none
    confirmInstall := true
    confirmGreetd := true
    confirmReboot := false }

/-- A dnf stdout whose skip section names (a build of) qt6-qtbase-devel
and no other critical package. -/
def skipStdoutC1 : String :=
  "Skipping packages with conflicts:\n qt6-qtbase-devel-1.0.x86_64\n\nComplete!"

/-- Host whose first dnf invocation reports the skip section above and
whose Qt retry succeeds cleanly. -/
def wC1 : World :=
  { w0 with
    exec := fun argv =>
      if argv = dnfQtRetryArgv then { success := true, stdout := "Complete!", stderr := "" }
      else { success := true, stdout := skipStdoutC1, stderr := "" } }

/-- Host on which every package is already present: dnf exits
successfully with no skip section (the state after a fully successful
prior run). -/
def wC2 : World :=
  { w0 with exec := fun _ => { success := true, stdout := "Installation complete", stderr := "" } }

/-- A kernel log carrying OOM-kill evidence. -/
def oomDmesgOut : ProcOutput :=
  { success := true
    stdout := "[12345.678] Out of memory: Killed process 4242 (cc1plus)"
    stderr := "" }

/-- Host where the Quickshell build command fails, all other commands
succeed, the Qt component files are present, and the kernel log shows an
OOM kill. -/
def wBuildFail : World :=
  { w0 with
    fileExists := fun p => p == quickPrivatePath || p == waylandPrivatePath
    dmesg := some oomDmesgOut
    exec := fun argv =>
      if argv = ["cmake", "--build", "/tmp/quickshell/build"] then failOut else okOut }

/-- Host where the dotfiles destination already exists and the refresh
pull fails. -/
def wC9 : World :=
  { w0 with
    fileExists := fun p => p == dotfilesDir
    exec := fun argv =>
      if argv = ["git", "-C", dotfilesDir, "pull"] then failOut else okOut }

/-- A non-Fedora host (os-release carries no Fedora ID marker). -/
def wC10 : World := { w0 with osRelease := some "ID=ubuntu" }

/-! ## Helper lemmas -/

theorem spawnArgvs_append (a b : List Effect) :
    spawnArgvs (a ++ b) = spawnArgvs a ++ spawnArgvs b := by
  simp [spawnArgvs]

theorem spawnArgvs_diagMap (f : String → String) (l : List String) :
    spawnArgvs (l.map fun p => Effect.diag (f p)) = [] := by
  induction l with
  | nil => rfl
  | cons p ps ih => simp [spawnArgvs] at ih ⊢

/-! ## C7 -/

/-- C7: the resource advisor is a threshold function of total physical
memory in kB (`total_gb = kb / 1024 / 1024`): below 2 GiB (2097152 kB)
it returns 1, in [2 GiB, 4 GiB) it returns 2, at or above 4 GiB it
returns 0 (unconstrained); and on the concrete memory source
`MemTotal: 1500000 kB` the advisor returns 1. -/
theorem c7_resource_advisor_thresholds :
    (∀ kb : Nat, kb < 2097152 → jobsOfKb kb = 1) ∧
    (∀ kb : Nat, 2097152 ≤ kb → kb < 4194304 → jobsOfKb kb = 2) ∧
    (∀ kb : Nat, 4194304 ≤ kb → jobsOfKb kb = 0) ∧
    get_ninja_jobs (some "MemTotal: 1500000 kB") = 1 := by
  refine ⟨?_, ?_, ?_, rfl⟩
  · intro kb h
    have h2 : kb / 1024 / 1024 < 2 := by omega
    simp [jobsOfKb, h2]
  · intro kb h1 h2
    have ha : ¬ kb / 1024 / 1024 < 2 := by omega
    have hb : kb / 1024 / 1024 < 4 := by omega
    simp [jobsOfKb, ha, hb]
  · intro kb h
    have ha : ¬ kb / 1024 / 1024 < 2 := by omega
    have hb : ¬ kb / 1024 / 1024 < 4 := by omega
    simp [jobsOfKb, ha, hb]

/-- C7 witness: the three threshold branches at concrete inputs. -/
theorem c7_witness :
    jobsOfKb 1500000 = 1 ∧ jobsOfKb 3000000 = 2 ∧ jobsOfKb 8000000 = 0 :=
  ⟨c7_resource_advisor_thresholds.1 1500000 (by decide),
   c7_resource_advisor_thresholds.2.1 3000000 (by decide) (by decide),
   c7_resource_advisor_thresholds.2.2.1 8000000 (by decide)⟩

/-! ## C3 -/

/-- C3 counterexample: inside a skip section, a line naming only the
longer, different package `qt6-qtbase-devel-docs` marks the requested
critical package `qt6-qtbase-devel` as skipped, because the source
matches with plain substring containment (`line.contains(pkg)`). -/
theorem c3_counterexample :
    strContainsSub " qt6-qtbase-devel-docs" "qt6-qtbase-devel" = true ∧
    "qt6-qtbase-devel-docs" ≠ "qt6-qtbase-devel" ∧
    skippedCritical "Skipping packages with conflicts:\n qt6-qtbase-devel-docs\n"
      = ["qt6-qtbase-devel"] :=
  ⟨rfl, by decide, rfl⟩

/-- C3 amended: inside a skip section, the classifier marks a checked
package exactly when the line contains its full declared name as a
substring; hence a name that occurs only as part of a longer package
name on the line is still marked (false positives are possible), while
a name the line does not contain at all is never marked. -/
theorem c3_amended_substring_marking (pkgsToCheck acc : List String) (line : String)
    (hnh : strContainsSub line "Skipping packages" = false)
    (hnb : strIsBlank line = false)
    (hni : strStartsWith line "Installing" = false)
    (hnu : strStartsWith line "Upgrading" = false) :
    (scanStep pkgsToCheck (true, acc) line).2
      = acc ++ pkgsToCheck.filter fun pkg => strContainsSub line pkg := by
  simp [scanStep, hnh, hnb, hni, hnu]

/-- C3 witness: the amended marking rule applied to the concrete
substring-collision line. -/
theorem c3_witness :
    (scanStep (CRITICAL_QT_PACKAGES.take 3) (true, []) " qt6-qtbase-devel-docs").2
      = [] ++ (CRITICAL_QT_PACKAGES.take 3).filter
          (fun pkg => strContainsSub " qt6-qtbase-devel-docs" pkg) :=
  c3_amended_substring_marking (CRITICAL_QT_PACKAGES.take 3) []
    " qt6-qtbase-devel-docs" rfl rfl rfl rfl

/-! ## C4 -/

/-- C4 counterexample: `qt6-qtsvg-devel` is a critical package (index 3
of `CRITICAL_QT_PACKAGES`), yet a skip section naming it marks nothing,
because the scan checks only the first three critical packages
(`iter().take(3)`). -/
theorem c4_counterexample :
    CRITICAL_QT_PACKAGES.get? 3 = some "qt6-qtsvg-devel" ∧
    skippedCritical "Skipping packages with conflicts:\n qt6-qtsvg-devel\n" = [] :=
  ⟨rfl, rfl⟩

theorem scanStep_mem (cset : List String) (st : Bool × List String) (line pkg : String)
    (h : pkg ∈ (scanStep cset st line).2) : pkg ∈ st.2 ∨ pkg ∈ cset := by
  unfold scanStep at h
  split at h
  · exact Or.inl h
  · split at h
    · simp at h
      exact Or.inl h
    · cases hst : st.1 with
      | false =>
        rw [hst] at h
        simp at h
        exact Or.inl h
      | true =>
        rw [hst] at h
        simp at h
        rcases h with h1 | ⟨h1, -⟩
        · exact Or.inl h1
        · exact Or.inr h1

theorem foldl_scanStep_mem (cset : List String) (lines : List String)
    (st : Bool × List String) (pkg : String)
    (h : pkg ∈ (lines.foldl (scanStep cset) st).2) : pkg ∈ st.2 ∨ pkg ∈ cset := by
  induction lines generalizing st with
  | nil => exact Or.inl h
  | cons l ls ih =>
    rcases ih (scanStep cset st l) h with h1 | h1
    · exact scanStep_mem cset st l pkg h1
    · exact Or.inr h1

/-- C4 amended: the scan is the described line-by-line boolean state
machine — a header line sets the flag without marking, a blank line or
an Installing/Upgrading section start clears it without marking, lines
outside the section never mark — but the marking applies only to the
first three critical packages (`take 3`), and consequently every marked
package is among those first three. -/
theorem c4_amended_scan_state_machine :
    (∀ (st : Bool × List String) (line : String),
      strContainsSub line "Skipping packages" = true →
      scanStep (CRITICAL_QT_PACKAGES.take 3) st line = (true, st.2)) ∧
    (∀ (acc : List String) (line : String),
      strContainsSub line "Skipping packages" = false →
      (strIsBlank line || strStartsWith line "Installing"
        || strStartsWith line "Upgrading") = true →
      scanStep (CRITICAL_QT_PACKAGES.take 3) (true, acc) line = (false, acc)) ∧
    (∀ (acc : List String) (line : String),
      strContainsSub line "Skipping packages" = false →
      scanStep (CRITICAL_QT_PACKAGES.take 3) (false, acc) line = (false, acc)) ∧
    (∀ (acc : List String) (line : String),
      strContainsSub line "Skipping packages" = false →
      strIsBlank line = false → strStartsWith line "Installing" = false →
      strStartsWith line "Upgrading" = false →
      (scanStep (CRITICAL_QT_PACKAGES.take 3) (true, acc) line).2
        = acc ++ (CRITICAL_QT_PACKAGES.take 3).filter fun pkg => strContainsSub line pkg) ∧
    (∀ (stdout pkg : String),
      pkg ∈ skippedCritical stdout → pkg ∈ CRITICAL_QT_PACKAGES.take 3) := by
  refine ⟨?_, ?_, ?_, ?_, ?_⟩
  · intro st line h
    simp [scanStep, h]
  · intro acc line hnh hend
    simp [scanStep, hnh, hend]
  · intro acc line hnh
    simp [scanStep, hnh]
  · intro acc line hnh hnb hni hnu
    simp [scanStep, hnh, hnb, hni, hnu]
  · intro stdout pkg h
    rcases foldl_scanStep_mem _ _ _ _ h with h1 | h1
    · cases h1
    · exact h1

/-- C4 witness: the state machine branches at concrete lines. -/
theorem c4_witness :
    scanStep (CRITICAL_QT_PACKAGES.take 3) (false, [])
      "Skipping packages with conflicts:" = (true, []) ∧
    scanStep (CRITICAL_QT_PACKAGES.take 3) (true, ["qt6-qtbase-devel"]) ""
      = (false, ["qt6-qtbase-devel"]) ∧
    scanStep (CRITICAL_QT_PACKAGES.take 3) (false, []) " qt6-qtbase-devel" = (false, []) :=
  ⟨c4_amended_scan_state_machine.1 (false, []) "Skipping packages with conflicts:" rfl,
   c4_amended_scan_state_machine.2.1 ["qt6-qtbase-devel"] "" rfl rfl,
   c4_amended_scan_state_machine.2.2.1 [] " qt6-qtbase-devel" rfl⟩

/-! ## C1 -/

/-- C1 counterexample: on a host whose first invocation skips exactly
`qt6-qtbase-devel`, the retry invocation requests the entire fixed
`CRITICAL_QT_PACKAGES` list (seven packages), not the singleton set of
skipped critical packages the claim states. -/
theorem c1_counterexample :
    skippedCritical skipStdoutC1 = ["qt6-qtbase-devel"] ∧
    spawnArgvs (install_all false wC1).1 = [dnfInstallArgv, dnfQtRetryArgv] ∧
    dnfQtRetryArgv.drop 5 = CRITICAL_QT_PACKAGES ∧
    dnfQtRetryArgv.drop 5 ≠ ["qt6-qtbase-devel"] ∧
    (install_all false wC1).2 = Except.ok () :=
  ⟨rfl, rfl, rfl, by decide, rfl⟩

/-- C1 amended: whenever the first invocation's output carries a skip
marker and the scan finds skipped critical packages, the second
invocation is made, and its requested set is always the full fixed
`CRITICAL_QT_PACKAGES` list with conflict-resolution flags — regardless
of which critical packages were skipped. -/
theorem c1_amended_retry_full_critical_list (w : World)
    (hskip : (strContainsSub (w.exec dnfInstallArgv).stdout "Skipping packages with conflicts"
        || strContainsSub (w.exec dnfInstallArgv).stdout
            "Skipping packages with broken dependencies") = true)
    (hcrit : (skippedCritical (w.exec dnfInstallArgv).stdout).isEmpty = false) :
    spawnArgvs (install_all false w).1 = [dnfInstallArgv, dnfQtRetryArgv] := by
  unfold install_all
  simp only [hskip, hcrit, Bool.false_eq_true, if_false, if_true]
  cases hq : (!(w.exec dnfQtRetryArgv).success
      || strContainsSub (w.exec dnfQtRetryArgv).stdout "Skipping packages") with
  | true =>
    simp [hq, spawnArgvs_append, spawnArgvs, spawnArgvs_diagMap]
  | false =>
    cases hs : (w.exec dnfInstallArgv).success <;>
      simp [hq, hs, spawnArgvs_append, spawnArgvs, spawnArgvs_diagMap]

/-- C1 witness: the amended retry shape at the concrete skip output. -/
theorem c1_witness :
    spawnArgvs (install_all false wC1).1 = [dnfInstallArgv, dnfQtRetryArgv] :=
  c1_amended_retry_full_critical_list wC1 rfl rfl

/-! ## C2 -/

/-- C2 counterexample: on a host modelling the state after a fully
successful prior run (the package manager exits successfully with no
skip section), a second run of `install_all` still performs one
external package-manager invocation, not zero. -/
theorem c2_counterexample :
    (spawnArgvs (install_all false wC2).1).length = 1 ∧
    (install_all false wC2).2 = Except.ok () :=
  ⟨rfl, rfl⟩

/-- C2 amended: `install_all` has no idempotency precondition: every
non-dry run begins with the full package-manager invocation, and a run
against a host where everything already succeeds performs exactly that
one invocation and reports success. -/
theorem c2_amended_no_short_circuit :
    (∀ w : World, (spawnArgvs (install_all false w).1).head? = some dnfInstallArgv) ∧
    (∀ w : World,
      (w.exec dnfInstallArgv).success = true →
      (strContainsSub (w.exec dnfInstallArgv).stdout "Skipping packages with conflicts"
        || strContainsSub (w.exec dnfInstallArgv).stdout
            "Skipping packages with broken dependencies") = false →
      install_all false w = ([Effect.spawn dnfInstallArgv], Except.ok ())) := by
  constructor
  · intro w
    unfold install_all
    cases hg : (strContainsSub (w.exec dnfInstallArgv).stdout "Skipping packages with conflicts"
        || strContainsSub (w.exec dnfInstallArgv).stdout
            "Skipping packages with broken dependencies") with
    | false =>
      cases hs : (w.exec dnfInstallArgv).success <;> simp [hg, hs, spawnArgvs]
    | true =>
      cases he : (skippedCritical (w.exec dnfInstallArgv).stdout).isEmpty with
      | true =>
        cases hs : (w.exec dnfInstallArgv).success <;> simp [hg, he, hs, spawnArgvs]
      | false =>
        cases hq : (!(w.exec dnfQtRetryArgv).success
            || strContainsSub (w.exec dnfQtRetryArgv).stdout "Skipping packages") with
        | true => simp [hg, he, hq, spawnArgvs]
        | false =>
          cases hs : (w.exec dnfInstallArgv).success <;>
            simp [hg, he, hq, hs, spawnArgvs]
  · intro w hs hg
    unfold install_all
    simp [hg, hs]

/-- C2 witness: the amended statement at the fully-provisioned host. -/
theorem c2_witness :
    (spawnArgvs (install_all false wC2).1).head? = some dnfInstallArgv ∧
    install_all false wC2 = ([Effect.spawn dnfInstallArgv], Except.ok ()) :=
  ⟨c2_amended_no_short_circuit.1 wC2, c2_amended_no_short_circuit.2 wC2 rfl rfl⟩

/-! ## C5 -/

/-- C5: for every step sequence, if step `k` is the first to return
Fatal, exactly steps `0..k` execute (steps `k+1..n` never run), the
run's result is that error, and the process exit status is non-zero
(`main` maps any run error to exit code 1). -/
theorem c5_pipeline_abort (steps : List (World → StepResult)) (w : World)
    (k : Nat) (sk : World → StepResult) (e : String)
    (hk : steps.get? k = some sk)
    (hprev : ∀ i s, i < k → steps.get? i = some s → (s w).2 = Except.ok ())
    (hfatal : (sk w).2 = Except.error e) :
    (execSteps steps w).1 = k + 1 ∧
    (execSteps steps w).2.2 = Except.error e ∧
    exitOf (execSteps steps w).2.2 = 1 ∧
    (∀ (dry_run noconfirm : Bool) (w2 : World) (e2 : String),
      (run dry_run noconfirm w2).2 = Except.error e2 →
      mainExitCode dry_run noconfirm w2 = 1) := by
  have hmain : ∀ (dry_run noconfirm : Bool) (w2 : World) (e2 : String),
      (run dry_run noconfirm w2).2 = Except.error e2 →
      mainExitCode dry_run noconfirm w2 = 1 := by
    intro d nc w2 e2 h
    unfold mainExitCode
    rw [h]
    rfl
  induction steps generalizing k with
  | nil => simp at hk
  | cons s rest ih =>
    cases k with
    | zero =>
      simp at hk
      subst hk
      rcases hsw : s w with ⟨tr, res⟩
      rw [hsw] at hfatal
      simp at hfatal
      subst hfatal
      refine ⟨?_, ?_, ?_, hmain⟩ <;> simp [execSteps, hsw, exitOf]
    | succ k =>
      have h0 : (s w).2 = Except.ok () := hprev 0 s (Nat.succ_pos k) rfl
      rcases hsw : s w with ⟨tr, res⟩
      rw [hsw] at h0
      simp at h0
      subst h0
      have hk2 : rest.get? k = some sk := by simpa using hk
      have hprev2 : ∀ i s2, i < k → rest.get? i = some s2 → (s2 w).2 = Except.ok () := by
        intro i s2 hi hs2
        exact hprev (i + 1) s2 (Nat.succ_lt_succ hi) (by simpa using hs2)
      obtain ⟨ha, hb, hc, -⟩ := ih k hk2 hprev2
      refine ⟨?_, ?_, ?_, hmain⟩ <;> simp [execSteps, hsw, ha, hb, hc, exitOf]

/-- Three concrete steps whose middle one is Fatal. -/
def demoFatalSteps : List (World → StepResult) :=
  [fun _ => ([], Except.ok ()),
   fun _ => ([], Except.error "boom"),
   fun _ => ([], Except.ok ())]

/-- C5 witness: the abort property at a concrete three-step sequence
with a Fatal second step, and the non-zero exit at a concrete world
whose first pipeline step fails. -/
theorem c5_witness :
    (execSteps demoFatalSteps w0).1 = 2 ∧
    (execSteps demoFatalSteps w0).2.2 = Except.error "boom" ∧
    exitOf (execSteps demoFatalSteps w0).2.2 = 1 ∧
    mainExitCode true true wC10 = 1 := by
  obtain ⟨h1, h2, h3, h4⟩ :=
    c5_pipeline_abort demoFatalSteps w0 1 (fun _ => ([], Except.error "boom")) "boom"
      rfl
      (by
        intro i s hi hs
        interval_cases i
        simp only [demoFatalSteps, List.get?_cons_zero] at hs
        injection hs with hs
        subst hs
        rfl)
      rfl
  exact ⟨h1, h2, h3,
    h4 true true wC10
      "This installer only supports Fedora. Detected OS does not appear to be Fedora." rfl⟩

/-! ## C9 -/

/-- C9: when the dotfiles destination directory already exists and the
refresh `git pull` fails, `clone_repo` records the warning diagnostic
yet still returns Success, and in any pipeline the next step after this
one still executes. -/
theorem c9_pull_failure_still_success (w : World) (url dest : String)
    (hexists : w.fileExists dest = true)
    (hpull : (w.exec ["git", "-C", dest, "pull"]).success = false) :
    clone_repo url dest false w =
      ([Effect.spawn ["git", "-C", dest, "pull"],
        Effect.diag "Pull failed, continuing anyway"], Except.ok ()) ∧
    ∀ next : World → StepResult,
      (execSteps [fun w2 => clone_repo url dest false w2, next] w).1 = 2 := by
  have hc : clone_repo url dest false w =
      ([Effect.spawn ["git", "-C", dest, "pull"],
        Effect.diag "Pull failed, continuing anyway"], Except.ok ()) := by
    unfold clone_repo
    simp [hexists, hpull]
  refine ⟨hc, fun next => ?_⟩
  rcases hn : next w with ⟨tr, res⟩
  cases res with
  | error e => simp [execSteps, hc, hn]
  | ok u => cases u; simp [execSteps, hc, hn]

/-- C9 witness: the pull-failure tolerance at the concrete world `wC9`
with a trivial next step. -/
theorem c9_witness :
    clone_repo DOTFILES_REPO dotfilesDir false wC9 =
      ([Effect.spawn ["git", "-C", dotfilesDir, "pull"],
        Effect.diag "Pull failed, continuing anyway"], Except.ok ()) ∧
    (execSteps [fun w2 => clone_repo DOTFILES_REPO dotfilesDir false w2,
      fun _ => ([], Except.ok ())] wC9).1 = 2 := by
  obtain ⟨h1, h2⟩ := c9_pull_failure_still_success wC9 DOTFILES_REPO dotfilesDir rfl rfl
  exact ⟨h1, h2 _⟩

/-! ## C10 -/

theorem check_fedora_no_trace (w : World) : (check_fedora w).1 = [] := by
  cases h : (!strContainsSub (w.osRelease.getD "") "ID=fedora"
      && !strContainsSub (w.osRelease.getD "") "ID=\"fedora\"") <;>
    simp [check_fedora, h]

theorem checks_run_all_dry (w : World) :
    checks_run_all true w = ([], (check_fedora w).2) := by
  rcases hf : check_fedora w with ⟨tr, res⟩
  have htr : tr = [] := by
    have h := check_fedora_no_trace w
    rw [hf] at h
    exact h
  subst htr
  cases res with
  | error e => simp [checks_run_all, andThenStep, hf]
  | ok u =>
    cases u
    simp [checks_run_all, andThenStep, hf, check_network, check_sudo]

/-- C10: the Fedora pre-flight check always executes, even in dry-run
mode: dry-run never spawns any pre-flight process (network and sudo
checks are skipped), and on a host whose os-release carries no Fedora
ID marker a dry-run invocation fails at the first pipeline step and the
program exits non-zero. -/
theorem c10_fedora_check_runs_in_dry_run :
    (∀ w : World, (checks_run_all true w).1 = []) ∧
    (∀ w : World,
      strContainsSub (w.osRelease.getD "") "ID=fedora" = false →
      strContainsSub (w.osRelease.getD "") "ID=\"fedora\"" = false →
      (checks_run_all true w).2 =
        Except.error "This installer only supports Fedora. Detected OS does not appear to be Fedora." ∧
      (∀ noconfirm : Bool, (execSteps (pipelineSteps true noconfirm) w).1 = 1) ∧
      (∀ noconfirm : Bool, mainExitCode true noconfirm w = 1)) := by
  constructor
  · intro w
    rw [checks_run_all_dry]
  · intro w h1 h2
    have hf : check_fedora w = ([],
        Except.error "This installer only supports Fedora. Detected OS does not appear to be Fedora.") := by
      unfold check_fedora
      simp [h1, h2]
    refine ⟨?_, ?_, ?_⟩
    · rw [checks_run_all_dry, hf]
    · intro nc
      simp [pipelineSteps, execSteps, checks_run_all_dry, hf]
    · intro nc
      unfold mainExitCode run
      simp [pipelineSteps, execSteps, checks_run_all_dry, hf, exitOf]

/-- C10 witness: the non-Fedora dry-run outcome at `wC10`. -/
theorem c10_witness :
    (checks_run_all true wC10).1 = [] ∧
    (checks_run_all true wC10).2 =
      Except.error "This installer only supports Fedora. Detected OS does not appear to be Fedora." ∧
    (execSteps (pipelineSteps true true) wC10).1 = 1 ∧
    mainExitCode true true wC10 = 1 := by
  obtain ⟨hA, hB⟩ := c10_fedora_check_runs_in_dry_run
  obtain ⟨h1, h2, h3⟩ := hB wC10 rfl rfl
  exact ⟨hA wC10, h1, h2 true, h3 true⟩

/-! ## C6 -/

theorem execSteps_pipeline_dry (nc : Bool) (w : World) :
    execSteps (pipelineSteps true nc) w =
      match (check_fedora w).2 with
      | Except.error e => (1, [], Except.error e)
      | Except.ok _ => (18, [], Except.ok ()) := by
  cases hf : (check_fedora w).2 with
  | error e =>
    simp [pipelineSteps, execSteps, checks_run_all_dry, hf]
  | ok u =>
    cases u
    simp [pipelineSteps, execSteps, checks_run_all_dry, hf, install_all,
      install_starship, install_rust, install_hyprland_qt_support,
      install_hyprland_qtutils, install_quickshell, install_cava, install_fonts,
      clone_repos, clone_repo, patch_gestures, install_cli, symlink_configs,
      create_symlink, symlinkPairs, init_scheme, build_shell, shell_setup_all,
      setup_keybinds, greetd_setup_all, create_greeter_user, create_cache_dir,
      write_config, configure_services, add_all, add_copr, COPR_REPOS, andThenStep]

/-- C6: in dry-run mode every pipeline step produces an empty effect
trace (no filesystem mutation, no process spawned at all), the whole
run's trace is empty, and re-running the pipeline on the world updated
by the first run's (empty) trace reports identical outcomes. -/
theorem c6_dry_run_invariance :
    ∀ (noconfirm : Bool) (w : World),
      (∀ s ∈ pipelineSteps true noconfirm, (s w).1 = []) ∧
      (run true noconfirm w).1 = [] ∧
      run true noconfirm (applyEffects w (run true noconfirm w).1)
        = run true noconfirm w := by
  intro nc w
  have hsteps : ∀ s ∈ pipelineSteps true nc, (s w).1 = [] := by
    intro s hs
    fin_cases hs <;>
      first
        | rfl
        | (simp only []
           rw [checks_run_all_dry])
        | (simp only []
           cases hgate : nc || w.confirmGreetd <;> simp [hgate] <;> rfl)
  have hrun : (run true nc w).1 = [] := by
    unfold run
    rw [execSteps_pipeline_dry]
    cases hf : (check_fedora w).2 with
    | error e => simp [hf]
    | ok u => cases u; simp [hf]
  exact ⟨hsteps, hrun, by rw [hrun]; rfl⟩

/-- C6 witness: the empty dry-run trace at the benign host `w0`, both
for a concrete step of the pipeline and for the whole run. -/
theorem c6_witness :
    ((fun w => install_all true w) w0).1 = [] ∧ (run true true w0).1 = [] :=
  ⟨(c6_dry_run_invariance true w0).1 _
      (by
        unfold pipelineSteps
        exact List.mem_cons_of_mem _ (List.mem_cons_of_mem _ (List.mem_cons_self _ _))),
    (c6_dry_run_invariance true w0).2.1⟩

/-! ## C8 -/

/-- C8: the post-build OOM check never changes the step's outcome.  The
result of `install_quickshell` is invariant under any change of the
kernel-log content; `check_oom_event` itself has no failure mode (it
only spawns `dmesg` and possibly emits a diagnostic, as evaluated here
on an OOM log); and at a concrete host whose build fails with OOM
evidence in the kernel log, the step still returns the original Fatal
build error. -/
theorem c8_oom_check_never_changes_outcome :
    (∀ (w : World) (d : Option ProcOutput),
      (install_quickshell false { w with dmesg := d }).2
        = (install_quickshell false w).2) ∧
    check_oom_event (some oomDmesgOut) =
      [Effect.spawn ["dmesg"],
       Effect.diag "DETECTED: Build was likely killed by OOM (Out Of Memory) killer!"] ∧
    (install_quickshell false wBuildFail).2 =
      Except.error "Failed to build Quickshell. Check ~/.cache/caelestia-installer/install.log for details." := by
  refine ⟨?_, rfl, rfl⟩
  intro w d
  have hv : verify_qt_packages { w with dmesg := d } = verify_qt_packages w := rfl
  have hw : ({ w with dmesg := d } : World).whichOk = w.whichOk := rfl
  have he : ({ w with dmesg := d } : World).exec = w.exec := rfl
  have hf : ({ w with dmesg := d } : World).fileExists = w.fileExists := rfl
  have hm : ({ w with dmesg := d } : World).memInfo = w.memInfo := rfl
  have hd : ({ w with dmesg := d } : World).dmesg = d := rfl
  unfold install_quickshell
  rw [hv, hw, he, hf, hm, hd]
  rcases hvp : verify_qt_packages w with ⟨vtr, vres⟩
  cases vres with
  | error e => rfl
  | ok u =>
    cases u
    simp only [andThenStep]
    simp [apply_ite Prod.snd]
